import Mathlib

/-!
Verification of `src/core/theme/variables.js` (mdeditor): a shallow embedding
of `hexToRgb`, `getDarkModeColors` and `computeThemeVariables`, with theorems
settling the frozen claims about the theme-variable computation.

Modelling conventions:
* JS strings are Lean `String`s; the character-level work is done on `.data`.
* A JS value that may be `null`/`undefined`, a string, or something else is
  `JsVal`; `hexToRgb`'s "missing or not a string" guard is the non-`str` cases.
* A JS object field that may be absent is `Option String`; JS truthiness of
  such a field (`undefined` and `""` are falsy) is `truthy`.
* The produced CSS-variable object is a `List (String × Option String)` in
  insertion order; all keys the code writes are pairwise distinct, so
  `List.lookup` agrees with JS property access on every key the claims query.
* JS numbers: every quantity here is a small non-negative integer, so `Nat`
  is used.  The brightness test `(r*299 + g*587 + b*114) / 1000 < 128` is
  written with `Nat` division, which gives the same truth value as the JS
  float division (the comparison is equivalent to `r*299+g*587+b*114 < 128000`
  and float rounding of `x/1000` for `x ≤ 255000` cannot cross an integer).
  In `Math.min(255, lighter - 20)` the operand `lighter = min 255 (x+80)` is
  always ≥ 80, so `Nat` truncated subtraction coincides with JS arithmetic.
-/

namespace ThemeVars

/-- RGB components as returned by `hexToRgb` on success. -/
structure Rgb where
  r : Nat
  g : Nat
  b : Nat
deriving DecidableEq

/-- A JS value as far as `hexToRgb`'s input validation is concerned:
`null`/`undefined`, a string, or any other (non-string) value. -/
inductive JsVal where
  | nullv : JsVal
  | str : String → JsVal
  | other : JsVal

/-- The character class `[a-f\d]` under the `i` flag: a hex digit of either
case.  (Codes: `0`-`9` are 48-57, `a`-`f` are 97-102, `A`-`F` are 65-70.) -/
def isHexDigit (c : Char) : Bool :=
  (48 ≤ c.toNat && c.toNat ≤ 57) || (97 ≤ c.toNat && c.toNat ≤ 102) ||
    (65 ≤ c.toNat && c.toNat ≤ 70)

/-- The numeric value of one hex digit, as `parseInt(-, 16)` reads it. -/
def hexVal (c : Char) : Nat :=
  if 48 ≤ c.toNat ∧ c.toNat ≤ 57 then c.toNat - 48
  else if 97 ≤ c.toNat ∧ c.toNat ≤ 102 then c.toNat - 87
  else if 65 ≤ c.toNat ∧ c.toNat ≤ 70 then c.toNat - 55
  else 0

/-- JS `String.prototype.replace` with a one-character string pattern and an
empty replacement: it removes the first occurrence of `c` (anywhere in the
string), and only that one. -/
def replaceFirst (c : Char) : List Char → List Char
  | [] => []
  | x :: xs => if x = c then xs else x :: replaceFirst c xs

/-- The shorthand step `cleanHex.replace(/^([a-f\d])([a-f\d])([a-f\d])$/i, ...)`:
the regex is anchored at both ends, so only a whole string of exactly three hex
digits is replaced, each digit doubled; anything else passes through. -/
def expandShorthand (l : List Char) : List Char :=
  match l with
  | [a, b, c] =>
    if isHexDigit a && isHexDigit b && isHexDigit c then [a, a, b, b, c, c] else l
  | _ => l

/-- The final `/^([a-f\d]{2})([a-f\d]{2})([a-f\d]{2})$/i.exec` plus the three
`parseInt(group, 16)` calls: exactly six hex digits, read pairwise. -/
def matchFullHex (l : List Char) : Option Rgb :=
  match l with
  | [a, b, c, d, e, f] =>
    if isHexDigit a && isHexDigit b && isHexDigit c &&
        isHexDigit d && isHexDigit e && isHexDigit f then
      some ⟨16 * hexVal a + hexVal b, 16 * hexVal c + hexVal d,
            16 * hexVal e + hexVal f⟩
    else none
  | _ => none

/-- The string-level pipeline of `hexToRgb`: the `!hex` guard rejects the
empty string, then `replace('#','')`, shorthand expansion, and the strict
six-digit match. -/
def hexToRgbList (l : List Char) : Option Rgb :=
  if l = [] then none
  else matchFullHex (expandShorthand (replaceFirst '#' l))

/-- `hexToRgb` from `variables.js`: `null`/`undefined` and non-string inputs
fail the `!hex || typeof hex !== 'string'` guard and yield the invalid
sentinel (`null`, here `none`). -/
def hexToRgb : JsVal → Option Rgb
  | JsVal.str s => hexToRgbList s.data
  | _ => none

/-! ### Basic parser lemmas -/

theorem hexVal_le (c : Char) : hexVal c ≤ 15 := by
  unfold hexVal
  repeat' split
  all_goals omega

theorem hex_ne_hash {c : Char} (h : isHexDigit c = true) : c ≠ '#' := by
  intro he
  subst he
  exact absurd h (by decide)

theorem matchFullHex_eq_some {l : List Char} {x : Rgb} (h : matchFullHex l = some x) :
    ∃ a b c d e f, l = [a, b, c, d, e, f] ∧
      isHexDigit a = true ∧ isHexDigit b = true ∧ isHexDigit c = true ∧
      isHexDigit d = true ∧ isHexDigit e = true ∧ isHexDigit f = true ∧
      x = ⟨16 * hexVal a + hexVal b, 16 * hexVal c + hexVal d,
           16 * hexVal e + hexVal f⟩ := by
  rcases l with _ | ⟨a, _ | ⟨b, _ | ⟨c, _ | ⟨d, _ | ⟨e, _ | ⟨f, _ | ⟨g, rest⟩⟩⟩⟩⟩⟩⟩
  · simp [matchFullHex] at h
  · simp [matchFullHex] at h
  · simp [matchFullHex] at h
  · simp [matchFullHex] at h
  · simp [matchFullHex] at h
  · simp [matchFullHex] at h
  · refine ⟨a, b, c, d, e, f, rfl, ?_⟩
    simp only [matchFullHex] at h
    split at h
    · rename_i hall
      simp only [Bool.and_eq_true] at hall
      obtain ⟨⟨⟨⟨⟨ha, hb⟩, hc⟩, hd⟩, he⟩, hf⟩ := hall
      cases h
      exact ⟨ha, hb, hc, hd, he, hf, rfl⟩
    · exact absurd h (by simp)
  · simp [matchFullHex] at h

theorem matchFullHex_eq_none_iff (l : List Char) :
    matchFullHex l = none ↔ ¬(l.length = 6 ∧ l.all isHexDigit = true) := by
  rcases l with _ | ⟨a, _ | ⟨b, _ | ⟨c, _ | ⟨d, _ | ⟨e, _ | ⟨f, _ | ⟨g, rest⟩⟩⟩⟩⟩⟩⟩
  · simp [matchFullHex]
  · simp [matchFullHex]
  · simp [matchFullHex]
  · simp [matchFullHex]
  · simp [matchFullHex]
  · simp [matchFullHex]
  · constructor
    · intro h hall
      obtain ⟨hlen, hall⟩ := hall
      rw [List.all_eq_true] at hall
      have ha := hall a (by simp)
      have hb := hall b (by simp)
      have hc := hall c (by simp)
      have hd := hall d (by simp)
      have he := hall e (by simp)
      have hf := hall f (by simp)
      simp only [matchFullHex, ha, hb, hc, hd, he, hf] at h
      simp at h
    · intro h
      simp only [matchFullHex]
      split
      · rename_i hall
        exfalso
        apply h
        simp only [Bool.and_eq_true] at hall
        obtain ⟨⟨⟨⟨⟨ha, hb⟩, hc⟩, hd⟩, he⟩, hf⟩ := hall
        refine ⟨by simp, ?_⟩
        rw [List.all_eq_true]
        intro z hz
        simp only [List.mem_cons, List.not_mem_nil, or_false] at hz
        rcases hz with rfl | rfl | rfl | rfl | rfl | rfl <;> assumption
      · rfl
  · constructor
    · intro _ hall
      obtain ⟨hlen, _⟩ := hall
      simp only [List.length_cons] at hlen
      omega
    · intro _
      simp [matchFullHex]

/-! ### The theme record and the two exported operations -/

/-- The theme record: the named color fields the code reads or writes, each
optional (absent models a JS `undefined` property), plus the optional
`listColors` array. -/
structure ColorTheme where
  primary : Option String := none
  primaryHover : Option String := none
  primaryLight : Option String := none
  primaryDark : Option String := none
  textPrimary : Option String := none
  textSecondary : Option String := none
  textTertiary : Option String := none
  bgPrimary : Option String := none
  bgSecondary : Option String := none
  bgTertiary : Option String := none
  borderLight : Option String := none
  borderMedium : Option String := none
  inlineCodeBg : Option String := none
  inlineCodeText : Option String := none
  inlineCodeBorder : Option String := none
  blockquoteBackground : Option String := none
  blockquoteBorder : Option String := none
  hrColor : Option String := none
  tableHeaderBg : Option String := none
  tableBorder : Option String := none
  listColors : Option (List String) := none
deriving DecidableEq

/-- JS truthiness of an optional string field: `undefined` and `""` are
falsy, every other string truthy. -/
def truthy : Option String → Bool
  | none => false
  | some s => !s.data.isEmpty

/-- The JS value held by an optional string field, as `hexToRgb` receives it. -/
def jsOf : Option String → JsVal
  | none => JsVal.nullv
  | some s => JsVal.str s

/-- The template literal `rgb(${r}, ${g}, ${b})`. -/
def rgbCss (r g b : Nat) : String :=
  "rgb(" ++ Nat.repr r ++ ", " ++ Nat.repr g ++ ", " ++ Nat.repr b ++ ")"

/-- `getDarkModeColors` from `variables.js`: shallow copy, fixed dark palette
overrides (with `blockquoteBorder` and `hrColor` carrying the original
`primary`), then conditional brightening of the primary family when the
original `primary` parses and its weighted brightness is below 128.  The
brightness test and the `-20` step use `Nat` arithmetic, which agrees with
the JS float/integer arithmetic on all reachable values (see the header). -/
def getDarkModeColors (originalTheme : ColorTheme) : ColorTheme :=
  let adjustedTheme : ColorTheme :=
    { originalTheme with
      bgPrimary := some "#1a1a1a"
      bgSecondary := some "#2d2d2d"
      bgTertiary := some "#3a3a3a"
      textPrimary := some "#e6e6e6"
      textSecondary := some "#b3b3b3"
      textTertiary := some "#888888"
      borderLight := some "#404040"
      borderMedium := some "#555555"
      inlineCodeBg := some "rgba(255, 255, 255, 0.1)"
      inlineCodeText := some "#f8f8f2"
      inlineCodeBorder := some "rgba(255, 255, 255, 0.15)"
      blockquoteBackground := some "rgba(255, 255, 255, 0.05)"
      blockquoteBorder := originalTheme.primary
      tableHeaderBg := some "#2d2d2d"
      tableBorder := some "#404040"
      hrColor := originalTheme.primary }
  if truthy originalTheme.primary then
    match hexToRgb (jsOf originalTheme.primary) with
    | some rgb =>
      if (rgb.r * 299 + rgb.g * 587 + rgb.b * 114) / 1000 < 128 then
        let lighterR := min 255 (rgb.r + 80)
        let lighterG := min 255 (rgb.g + 80)
        let lighterB := min 255 (rgb.b + 80)
        { adjustedTheme with
          primary := some (rgbCss lighterR lighterG lighterB)
          primaryHover := some (rgbCss (min 255 (lighterR + 20))
            (min 255 (lighterG + 20)) (min 255 (lighterB + 20)))
          primaryDark := some (rgbCss (min 255 (lighterR - 20))
            (min 255 (lighterG - 20)) (min 255 (lighterB - 20))) }
      else adjustedTheme
    | none => adjustedTheme
  else adjustedTheme

/-- The 20 fixed field-to-variable-name entries of `computeThemeVariables`,
in the object-literal order of the source. -/
def fixedVars (theme : ColorTheme) : List (String × Option String) :=
  [("--theme-primary", theme.primary),
   ("--theme-primary-hover", theme.primaryHover),
   ("--theme-primary-light", theme.primaryLight),
   ("--theme-primary-dark", theme.primaryDark),
   ("--theme-text-primary", theme.textPrimary),
   ("--theme-text-secondary", theme.textSecondary),
   ("--theme-text-tertiary", theme.textTertiary),
   ("--theme-bg-primary", theme.bgPrimary),
   ("--theme-bg-secondary", theme.bgSecondary),
   ("--theme-bg-tertiary", theme.bgTertiary),
   ("--theme-border-light", theme.borderLight),
   ("--theme-border-medium", theme.borderMedium),
   ("--theme-inline-code-bg", theme.inlineCodeBg),
   ("--theme-inline-code-text", theme.inlineCodeText),
   ("--theme-inline-code-border", theme.inlineCodeBorder),
   ("--theme-blockquote-border", theme.blockquoteBorder),
   ("--theme-blockquote-bg", theme.blockquoteBackground),
   ("--theme-hr-color", theme.hrColor),
   ("--theme-table-header-bg", theme.tableHeaderBg),
   ("--theme-table-border", theme.tableBorder)]

/-- The `listColors.forEach((color, index) => ...)` loop: one entry
`--theme-list-color-{index+1}` per element, order preserved; `i` is the
0-based index of the first remaining element. -/
def listVars : Nat → List String → List (String × Option String)
  | _, [] => []
  | i, c :: cs => ("--theme-list-color-" ++ Nat.repr (i + 1), some c) :: listVars (i + 1) cs

/-- The template literal `${rgb.r}, ${rgb.g}, ${rgb.b}`. -/
def rgbTriple (c : Rgb) : String :=
  Nat.repr c.r ++ ", " ++ Nat.repr c.g ++ ", " ++ Nat.repr c.b

/-- The template literal `rgba(${rgb.r}, ${rgb.g}, ${rgb.b}, ALPHA)`. -/
def rgbaCss (c : Rgb) (alpha : String) : String :=
  "rgba(" ++ Nat.repr c.r ++ ", " ++ Nat.repr c.g ++ ", " ++ Nat.repr c.b ++
    ", " ++ alpha ++ ")"

/-- The six derived RGB/alpha entries, in source order. -/
def alphaVars (c : Rgb) : List (String × Option String) :=
  [("--theme-primary-rgb", some (rgbTriple c)),
   ("--theme-primary-15", some (rgbaCss c "0.15")),
   ("--theme-primary-20", some (rgbaCss c "0.20")),
   ("--theme-primary-25", some (rgbaCss c "0.25")),
   ("--theme-primary-40", some (rgbaCss c "0.40")),
   ("--theme-primary-60", some (rgbaCss c "0.60"))]

/-- The guarded `listColors.forEach` block of `computeThemeVariables`: it
reads the original input theme (a truthy-and-`Array.isArray` guard in the
source; an array, even empty, always passes it). -/
def listPart (ct : ColorTheme) : List (String × Option String) :=
  match ct.listColors with
  | some ls => listVars 0 ls
  | none => []

/-- The guarded alpha/RGB block of `computeThemeVariables`: the source tests
`if (colorTheme.primary)` (truthiness) and then `if (rgb)` on the parse of
the original input theme's `primary`. -/
def alphaPart (ct : ColorTheme) : List (String × Option String) :=
  if truthy ct.primary then
    match hexToRgb (jsOf ct.primary) with
    | some rgb => alphaVars rgb
    | none => []
  else []

/-- `computeThemeVariables` from `variables.js`.  The output object is the
insertion-ordered association list; the `null`/`undefined` theme yields the
empty mapping.  The list-color and alpha groups are computed from the
original `colorTheme`, while the 20 fixed entries read the (possibly
dark-derived) working theme. -/
def computeThemeVariables (colorTheme : Option ColorTheme) (isDarkMode : Bool) :
    List (String × Option String) :=
  match colorTheme with
  | none => []
  | some ct =>
    let theme := if isDarkMode then getDarkModeColors ct else ct
    fixedVars theme ++ (listPart ct ++ alphaPart ct)

/-! ### Support lemmas about `Nat.repr` and association-list lookup -/

theorem toDigitsCore_length_ge (b : Nat) :
    ∀ (fuel n : Nat) (acc : List Char),
      acc.length + 1 ≤ (Nat.toDigitsCore b (fuel + 1) n acc).length := by
  intro fuel
  induction fuel with
  | zero =>
    intro n acc
    simp only [Nat.toDigitsCore]
    split
    · simp
    · simp [Nat.toDigitsCore]
  | succ f ih =>
    intro n acc
    rw [Nat.toDigitsCore]
    split
    · simp
    · calc acc.length + 1 ≤ (Nat.digitChar (n % b) :: acc).length := by simp
        _ ≤ _ := Nat.le_of_succ_le (ih (n / b) (Nat.digitChar (n % b) :: acc))

theorem repr_length_ge_one (n : Nat) : 1 ≤ (Nat.repr n).length := by
  have h := toDigitsCore_length_ge 10 n n []
  simpa using h

/-- Decimal value of a digit string, used to invert `Nat.toDigitsCore`. -/
def digitsVal : List Char → Nat
  | [] => 0
  | c :: cs => hexVal c * 10 ^ cs.length + digitsVal cs

theorem hexVal_digitChar_lt_ten (m : Nat) (h : m < 10) :
    hexVal (Nat.digitChar m) = m := by
  interval_cases m <;> decide

theorem digitsVal_toDigitsCore :
    ∀ (fuel n : Nat) (acc : List Char), n < fuel →
      digitsVal (Nat.toDigitsCore 10 fuel n acc) = n * 10 ^ acc.length + digitsVal acc := by
  intro fuel
  induction fuel with
  | zero => intro n acc h; exact absurd h (Nat.not_lt_zero n)
  | succ f ih =>
    intro n acc h
    rw [Nat.toDigitsCore]
    split
    · rename_i hdiv
      simp only [digitsVal, List.length_cons,
        hexVal_digitChar_lt_ten (n % 10) (Nat.mod_lt n (by omega))]
      have hn : n % 10 = n := by omega
      rw [hn]
    · rename_i hdiv
      have hlt : n / 10 < f := by omega
      rw [ih (n / 10) (Nat.digitChar (n % 10) :: acc) hlt]
      simp only [digitsVal, List.length_cons,
        hexVal_digitChar_lt_ten (n % 10) (Nat.mod_lt n (by omega))]
      have hqr : 10 * (n / 10) + n % 10 = n := Nat.div_add_mod n 10
      rw [pow_succ]
      generalize 10 ^ acc.length = L
      have h2 : n / 10 * (L * 10) + (n % 10 * L + digitsVal acc) =
          (10 * (n / 10) + n % 10) * L + digitsVal acc := by ring
      rw [h2, hqr]

theorem natRepr_injective {m n : Nat} (h : Nat.repr m = Nat.repr n) : m = n := by
  have hd : Nat.toDigits 10 m = Nat.toDigits 10 n := by
    have h2 : (Nat.repr m).data = (Nat.repr n).data := by rw [h]
    simpa [Nat.repr, List.asString] using h2
  have hm := digitsVal_toDigitsCore (m + 1) m [] (Nat.lt_succ_self m)
  have hn := digitsVal_toDigitsCore (n + 1) n [] (Nat.lt_succ_self n)
  simp only [Nat.toDigits] at hd
  rw [hd] at hm
  simp only [digitsVal, List.length_nil, pow_zero, Nat.mul_one, Nat.add_zero] at hm hn
  omega

theorem string_append_cancel_left {a x y : String} (h : a ++ x = a ++ y) : x = y := by
  have hd : a.data ++ x.data = a.data ++ y.data := by
    have := congrArg String.data h
    simpa using this
  have hxy : x.data = y.data := by
    generalize a.data = da at hd
    induction da with
    | nil => simpa using hd
    | cons c cs ih => exact ih (by simpa using hd)
  cases x with
  | mk dx =>
    cases y with
    | mk dy =>
      have hdd : dx = dy := by simpa using hxy
      rw [hdd]

theorem lookup_append_some {β : Type} (k : String) (l1 l2 : List (String × β)) (v : β)
    (h : List.lookup k l1 = some v) : List.lookup k (l1 ++ l2) = some v := by
  induction l1 with
  | nil => simp [List.lookup] at h
  | cons p rest ih =>
    rcases p with ⟨k1, v1⟩
    rw [List.cons_append, List.lookup]
    rw [List.lookup] at h
    cases hbeq : (k == k1) with
    | true => rw [hbeq] at h; simpa using h
    | false => rw [hbeq] at h; exact ih h

theorem lookup_append_none {β : Type} (k : String) (l1 l2 : List (String × β))
    (h : List.lookup k l1 = none) : List.lookup k (l1 ++ l2) = List.lookup k l2 := by
  induction l1 with
  | nil => simp
  | cons p rest ih =>
    rcases p with ⟨k1, v1⟩
    rw [List.cons_append, List.lookup]
    rw [List.lookup] at h
    cases hbeq : (k == k1) with
    | true => rw [hbeq] at h; simp at h
    | false => rw [hbeq] at h; exact ih h

/-- Every list-color key carries the letter `l` at index 8, which no other
key produced by the code does: this separates the `--theme-list-color-{i}`
family from every fixed and alpha key. -/
theorem listKey_ne (x : String) (k : String) (hk : k.data[8]? ≠ some 'l') :
    "--theme-list-color-" ++ x ≠ k := by
  intro h
  apply hk
  rw [← h]
  show ("--theme-list-color-".data ++ x.data)[8]? = some 'l'
  rfl

theorem lookup_listKey_fixedVars (th : ColorTheme) (x : String) :
    List.lookup ("--theme-list-color-" ++ x) (fixedVars th) = none := by
  have e1 := beq_eq_false_iff_ne.mpr (listKey_ne x "--theme-primary" (by decide))
  have e2 := beq_eq_false_iff_ne.mpr (listKey_ne x "--theme-primary-hover" (by decide))
  have e3 := beq_eq_false_iff_ne.mpr (listKey_ne x "--theme-primary-light" (by decide))
  have e4 := beq_eq_false_iff_ne.mpr (listKey_ne x "--theme-primary-dark" (by decide))
  have e5 := beq_eq_false_iff_ne.mpr (listKey_ne x "--theme-text-primary" (by decide))
  have e6 := beq_eq_false_iff_ne.mpr (listKey_ne x "--theme-text-secondary" (by decide))
  have e7 := beq_eq_false_iff_ne.mpr (listKey_ne x "--theme-text-tertiary" (by decide))
  have e8 := beq_eq_false_iff_ne.mpr (listKey_ne x "--theme-bg-primary" (by decide))
  have e9 := beq_eq_false_iff_ne.mpr (listKey_ne x "--theme-bg-secondary" (by decide))
  have e10 := beq_eq_false_iff_ne.mpr (listKey_ne x "--theme-bg-tertiary" (by decide))
  have e11 := beq_eq_false_iff_ne.mpr (listKey_ne x "--theme-border-light" (by decide))
  have e12 := beq_eq_false_iff_ne.mpr (listKey_ne x "--theme-border-medium" (by decide))
  have e13 := beq_eq_false_iff_ne.mpr (listKey_ne x "--theme-inline-code-bg" (by decide))
  have e14 := beq_eq_false_iff_ne.mpr (listKey_ne x "--theme-inline-code-text" (by decide))
  have e15 := beq_eq_false_iff_ne.mpr (listKey_ne x "--theme-inline-code-border" (by decide))
  have e16 := beq_eq_false_iff_ne.mpr (listKey_ne x "--theme-blockquote-border" (by decide))
  have e17 := beq_eq_false_iff_ne.mpr (listKey_ne x "--theme-blockquote-bg" (by decide))
  have e18 := beq_eq_false_iff_ne.mpr (listKey_ne x "--theme-hr-color" (by decide))
  have e19 := beq_eq_false_iff_ne.mpr (listKey_ne x "--theme-table-header-bg" (by decide))
  have e20 := beq_eq_false_iff_ne.mpr (listKey_ne x "--theme-table-border" (by decide))
  simp [fixedVars, List.lookup, e1, e2, e3, e4, e5, e6, e7, e8, e9, e10,
    e11, e12, e13, e14, e15, e16, e17, e18, e19, e20]

theorem lookup_listVars_of_ne (k : String) (hk : k.data[8]? ≠ some 'l') :
    ∀ (i : Nat) (ls : List String), List.lookup k (listVars i ls) = none := by
  intro i ls
  induction ls generalizing i with
  | nil => rfl
  | cons c cs ih =>
    have hne : k ≠ "--theme-list-color-" ++ Nat.repr (i + 1) :=
      fun h => listKey_ne (Nat.repr (i + 1)) k hk h.symm
    rw [listVars, List.lookup, beq_eq_false_iff_ne.mpr hne]
    exact ih (i + 1)

theorem lookup_listVars_get (ls : List String) :
    ∀ (j i : Nat) (hi : i < ls.length),
      List.lookup ("--theme-list-color-" ++ Nat.repr (j + i + 1)) (listVars j ls) =
        some (some (ls.get ⟨i, hi⟩)) := by
  induction ls with
  | nil => intro j i hi; simp at hi
  | cons c cs ih =>
    intro j i hi
    cases i with
    | zero =>
      rw [listVars, List.lookup]
      simp
    | succ i2 =>
      have hne : ("--theme-list-color-" ++ Nat.repr (j + (i2 + 1) + 1)) ≠
          ("--theme-list-color-" ++ Nat.repr (j + 1)) := by
        intro h
        have h2 := natRepr_injective (string_append_cancel_left h)
        omega
      rw [listVars, List.lookup, beq_eq_false_iff_ne.mpr hne]
      have h3 := ih (j + 1) i2 (by simpa using Nat.lt_of_succ_lt_succ hi)
      rw [show j + 1 + i2 + 1 = j + (i2 + 1) + 1 by omega] at h3
      simpa using h3

/-! ### Serialization helpers used by the round-trip claim -/

/-- Two lowercase hex digits of a byte value, high digit first. -/
def byteHex (n : Nat) : List Char := [Nat.digitChar (n / 16), Nat.digitChar (n % 16)]

/-- The round-trip claim's re-serialization of a parsed triple as `#rrggbb`. -/
def serializeRgb (c : Rgb) : List Char :=
  '#' :: (byteHex c.r ++ byteHex c.g ++ byteHex c.b)

theorem digitChar_hex (k : Nat) (h : k < 16) :
    isHexDigit (Nat.digitChar k) = true ∧ hexVal (Nat.digitChar k) = k := by
  interval_cases k <;> exact ⟨by decide, by decide⟩

theorem parse_serialize (x : Rgb) (hxr : x.r ≤ 255) (hxg : x.g ≤ 255) (hxb : x.b ≤ 255) :
    hexToRgb (JsVal.str ⟨serializeRgb x⟩) = some x := by
  obtain ⟨r, g, b⟩ := x
  simp only at hxr hxg hxb
  have r1 : r / 16 < 16 := by omega
  have r2 : r % 16 < 16 := by omega
  have g1 : g / 16 < 16 := by omega
  have g2 : g % 16 < 16 := by omega
  have b1 : b / 16 < 16 := by omega
  have b2 : b % 16 < 16 := by omega
  obtain ⟨hd1, hv1⟩ := digitChar_hex _ r1
  obtain ⟨hd2, hv2⟩ := digitChar_hex _ r2
  obtain ⟨hd3, hv3⟩ := digitChar_hex _ g1
  obtain ⟨hd4, hv4⟩ := digitChar_hex _ g2
  obtain ⟨hd5, hv5⟩ := digitChar_hex _ b1
  obtain ⟨hd6, hv6⟩ := digitChar_hex _ b2
  show hexToRgbList (serializeRgb ⟨r, g, b⟩) = some ⟨r, g, b⟩
  rw [hexToRgbList, if_neg (by simp [serializeRgb])]
  simp only [serializeRgb, byteHex, List.cons_append, List.nil_append]
  simp only [replaceFirst, if_pos rfl]
  simp only [expandShorthand]
  simp [matchFullHex, hd1, hd2, hd3, hd4, hd5, hd6, hv1, hv2, hv3, hv4, hv5, hv6,
    Rgb.mk.injEq]
  omega

/-! ### The claims -/

/-- C4: for either value of the dark-mode flag, `computeThemeVariables` on an
absent/null theme returns the empty mapping (and, being a total function,
raises no error). -/
theorem c4_null_theme (isDarkMode : Bool) : computeThemeVariables none isDarkMode = [] := rfl

/-- C9: missing (`null`/`undefined`) and non-string inputs make `hexToRgb`
return the invalid sentinel (no exception is possible: the embedding is a
total function), as do `"not-a-color"`, `""` and `"#12345"`; and
`computeThemeVariables` on a theme whose `primary` does not parse still
produces the pass-through entries while skipping all six derived RGB/alpha
entries. -/
theorem c9_invalid_sentinel :
    (∀ v : JsVal, (∀ s : String, v ≠ JsVal.str s) → hexToRgb v = none) ∧
    hexToRgb JsVal.nullv = none ∧
    hexToRgb JsVal.other = none ∧
    hexToRgb (JsVal.str "not-a-color") = none ∧
    hexToRgb (JsVal.str "") = none ∧
    hexToRgb (JsVal.str "#12345") = none ∧
    List.lookup "--theme-primary"
      (computeThemeVariables (some { primary := some "not-a-color" }) false) =
      some (some "not-a-color") ∧
    List.lookup "--theme-primary-rgb"
      (computeThemeVariables (some { primary := some "not-a-color" }) false) = none ∧
    List.lookup "--theme-primary-15"
      (computeThemeVariables (some { primary := some "not-a-color" }) false) = none ∧
    List.lookup "--theme-primary-20"
      (computeThemeVariables (some { primary := some "not-a-color" }) false) = none ∧
    List.lookup "--theme-primary-25"
      (computeThemeVariables (some { primary := some "not-a-color" }) false) = none ∧
    List.lookup "--theme-primary-40"
      (computeThemeVariables (some { primary := some "not-a-color" }) false) = none ∧
    List.lookup "--theme-primary-60"
      (computeThemeVariables (some { primary := some "not-a-color" }) false) = none := by
  refine ⟨?_, by decide, by decide, by decide, by decide, by decide, by decide,
    by decide, by decide, by decide, by decide, by decide, by decide⟩
  intro v hv
  cases v with
  | nullv => rfl
  | str s => exact absurd rfl (hv s)
  | other => rfl

/-- C3 (counterexample): the claim says a `#` in any non-leading position
yields the invalid sentinel, but `replace('#','')` removes the first `#`
anywhere, so `"00A8#6B"` parses successfully to (0, 168, 107). -/
theorem c3_counterexample :
    hexToRgb (JsVal.str "00A8#6B") ≠ none ∧
    hexToRgb (JsVal.str "00A8#6B") = some ⟨0, 168, 107⟩ := by decide

/-- C3 (amended): `hexToRgb` removes the first occurrence of `#` anywhere in
the string (not only a leading one); after that removal and shorthand
expansion it accepts exactly the strings of 6 hex digits (case-insensitive):
the result is the invalid sentinel precisely when the processed body is not
6 characters of hex digits. -/
theorem c3_strict_match (s : String) :
    hexToRgb (JsVal.str s) = none ↔
      ¬((expandShorthand (replaceFirst '#' s.data)).length = 6 ∧
        (expandShorthand (replaceFirst '#' s.data)).all isHexDigit = true) := by
  show hexToRgbList s.data = none ↔ _
  rw [hexToRgbList]
  split
  · rename_i hnil
    rw [hnil]
    simp [replaceFirst, expandShorthand]
  · exact matchFullHex_eq_none_iff _

/-- C6 (counterexample): the claim's literal values `rgba(255,255,255,0.1)`,
`rgba(255,255,255,0.15)` and `rgba(255,255,255,0.05)` (no spaces) do not
match the code, which writes a space after each comma. -/
theorem c6_counterexample :
    (getDarkModeColors {}).inlineCodeBg = some "rgba(255, 255, 255, 0.1)" ∧
    (getDarkModeColors {}).inlineCodeBg ≠ some "rgba(255,255,255,0.1)" ∧
    (getDarkModeColors {}).inlineCodeBorder = some "rgba(255, 255, 255, 0.15)" ∧
    (getDarkModeColors {}).inlineCodeBorder ≠ some "rgba(255,255,255,0.15)" ∧
    (getDarkModeColors {}).blockquoteBackground = some "rgba(255, 255, 255, 0.05)" ∧
    (getDarkModeColors {}).blockquoteBackground ≠ some "rgba(255,255,255,0.05)" := by
  decide

/-- C6 (amended): for every input theme, `getDarkModeColors` overrides the 14
palette fields with exactly the code's literal values, the rgba ones carrying
a space after each comma: `#1a1a1a`, `#2d2d2d`, `#3a3a3a`, `#e6e6e6`,
`#b3b3b3`, `#888888`, `#404040`, `#555555`, `rgba(255, 255, 255, 0.1)`,
`#f8f8f2`, `rgba(255, 255, 255, 0.15)`, `rgba(255, 255, 255, 0.05)`,
`#2d2d2d`, `#404040`. -/
theorem c6_dark_palette (t : ColorTheme) :
    (getDarkModeColors t).bgPrimary = some "#1a1a1a" ∧
    (getDarkModeColors t).bgSecondary = some "#2d2d2d" ∧
    (getDarkModeColors t).bgTertiary = some "#3a3a3a" ∧
    (getDarkModeColors t).textPrimary = some "#e6e6e6" ∧
    (getDarkModeColors t).textSecondary = some "#b3b3b3" ∧
    (getDarkModeColors t).textTertiary = some "#888888" ∧
    (getDarkModeColors t).borderLight = some "#404040" ∧
    (getDarkModeColors t).borderMedium = some "#555555" ∧
    (getDarkModeColors t).inlineCodeBg = some "rgba(255, 255, 255, 0.1)" ∧
    (getDarkModeColors t).inlineCodeText = some "#f8f8f2" ∧
    (getDarkModeColors t).inlineCodeBorder = some "rgba(255, 255, 255, 0.15)" ∧
    (getDarkModeColors t).blockquoteBackground = some "rgba(255, 255, 255, 0.05)" ∧
    (getDarkModeColors t).tableHeaderBg = some "#2d2d2d" ∧
    (getDarkModeColors t).tableBorder = some "#404040" := by
  simp only [getDarkModeColors]
  repeat' split
  all_goals exact ⟨rfl, rfl, rfl, rfl, rfl, rfl, rfl, rfl, rfl, rfl, rfl, rfl, rfl, rfl⟩

/-- C7: a 3-hex-digit input, with or without a leading `#`, parses to the
same triple as the 6-digit string obtained by doubling each digit; the value
of a doubled digit pair is 17 times the digit's value, so `#0AB` gives
(0, 170, 187). -/
theorem c7_shorthand (d1 d2 d3 : Char)
    (h1 : isHexDigit d1 = true) (h2 : isHexDigit d2 = true) (h3 : isHexDigit d3 = true) :
    hexToRgb (JsVal.str ⟨['#', d1, d2, d3]⟩) =
      hexToRgb (JsVal.str ⟨['#', d1, d1, d2, d2, d3, d3]⟩) ∧
    hexToRgb (JsVal.str ⟨[d1, d2, d3]⟩) =
      hexToRgb (JsVal.str ⟨[d1, d1, d2, d2, d3, d3]⟩) ∧
    hexToRgb (JsVal.str ⟨['#', d1, d2, d3]⟩) =
      some ⟨17 * hexVal d1, 17 * hexVal d2, 17 * hexVal d3⟩ := by
  have n1 := hex_ne_hash h1
  have n2 := hex_ne_hash h2
  have n3 := hex_ne_hash h3
  have hm : matchFullHex [d1, d1, d2, d2, d3, d3] =
      some ⟨17 * hexVal d1, 17 * hexVal d2, 17 * hexVal d3⟩ := by
    simp [matchFullHex, h1, h2, h3, Rgb.mk.injEq]
    omega
  have e1 : hexToRgb (JsVal.str ⟨['#', d1, d2, d3]⟩) =
      matchFullHex [d1, d1, d2, d2, d3, d3] := by
    show hexToRgbList ['#', d1, d2, d3] = _
    rw [hexToRgbList, if_neg (by simp)]
    simp [replaceFirst, expandShorthand, h1, h2, h3]
  have e2 : hexToRgb (JsVal.str ⟨['#', d1, d1, d2, d2, d3, d3]⟩) =
      matchFullHex [d1, d1, d2, d2, d3, d3] := by
    show hexToRgbList ['#', d1, d1, d2, d2, d3, d3] = _
    rw [hexToRgbList, if_neg (by simp)]
    simp [replaceFirst, expandShorthand]
  have e3 : hexToRgb (JsVal.str ⟨[d1, d2, d3]⟩) =
      matchFullHex [d1, d1, d2, d2, d3, d3] := by
    show hexToRgbList [d1, d2, d3] = _
    rw [hexToRgbList, if_neg (by simp)]
    simp [replaceFirst, expandShorthand, n1, n2, n3, h1, h2, h3]
  have e4 : hexToRgb (JsVal.str ⟨[d1, d1, d2, d2, d3, d3]⟩) =
      matchFullHex [d1, d1, d2, d2, d3, d3] := by
    show hexToRgbList [d1, d1, d2, d2, d3, d3] = _
    rw [hexToRgbList, if_neg (by simp)]
    simp [replaceFirst, expandShorthand, n1, n2, n3]
  exact ⟨e1.trans e2.symm, e3.trans e4.symm, e1.trans hm⟩

/-- C7 (witness): the spec's own example, `#0AB` versus `#00AABB`. -/
theorem c7_witness :
    hexToRgb (JsVal.str "#0AB") = hexToRgb (JsVal.str "#00AABB") ∧
    hexToRgb (JsVal.str "0AB") = hexToRgb (JsVal.str "00AABB") ∧
    hexToRgb (JsVal.str "#0AB") = some ⟨0, 170, 187⟩ :=
  c7_shorthand '0' 'A' 'B' (by decide) (by decide) (by decide)

/-- C8: every accepted hex string yields components in [0, 255], and
re-serializing the triple as `#rrggbb` and re-parsing returns the identical
triple. -/
theorem c8_roundtrip (s : String) (c : Rgb) (h : hexToRgb (JsVal.str s) = some c) :
    c.r ≤ 255 ∧ c.g ≤ 255 ∧ c.b ≤ 255 ∧
    hexToRgb (JsVal.str ⟨serializeRgb c⟩) = some c := by
  have h2 : hexToRgbList s.data = some c := h
  rw [hexToRgbList] at h2
  split at h2
  · exact absurd h2 (by simp)
  · obtain ⟨a, b, c2, d, e, f, hl, ha, hb, hc, hd2, he, hf, hx⟩ := matchFullHex_eq_some h2
    subst hx
    have la := hexVal_le a
    have lb := hexVal_le b
    have lc := hexVal_le c2
    have ld := hexVal_le d
    have le2 := hexVal_le e
    have lf := hexVal_le f
    have hr : (Rgb.mk (16 * hexVal a + hexVal b) (16 * hexVal c2 + hexVal d)
        (16 * hexVal e + hexVal f)).r ≤ 255 := by
      show 16 * hexVal a + hexVal b ≤ 255
      omega
    have hg : (Rgb.mk (16 * hexVal a + hexVal b) (16 * hexVal c2 + hexVal d)
        (16 * hexVal e + hexVal f)).g ≤ 255 := by
      show 16 * hexVal c2 + hexVal d ≤ 255
      omega
    have hbb : (Rgb.mk (16 * hexVal a + hexVal b) (16 * hexVal c2 + hexVal d)
        (16 * hexVal e + hexVal f)).b ≤ 255 := by
      show 16 * hexVal e + hexVal f ≤ 255
      omega
    exact ⟨hr, hg, hbb, parse_serialize _ hr hg hbb⟩

/-- C8 (witness): the spec's example `#00A86B`, components (0, 168, 107). -/
theorem c8_witness :
    (0 : Nat) ≤ 255 ∧ (168 : Nat) ≤ 255 ∧ (107 : Nat) ≤ 255 ∧
    hexToRgb (JsVal.str ⟨serializeRgb ⟨0, 168, 107⟩⟩) = some ⟨0, 168, 107⟩ :=
  c8_roundtrip "#00A86B" ⟨0, 168, 107⟩ (by decide)

/-! ### Helper lemmas for the computeThemeVariables claims -/

/-- A successful parse of an optional field implies the field was truthy:
`hexToRgb` rejects `undefined` and the empty string. -/
theorem truthy_of_parse {p : Option String} {c : Rgb}
    (h : hexToRgb (jsOf p) = some c) : truthy p = true := by
  cases hopt : p with
  | none => rw [hopt] at h; simp [jsOf, hexToRgb] at h
  | some s =>
    rw [hopt] at h
    cases hd : s.data with
    | nil =>
      have h3 : hexToRgbList s.data = some c := h
      rw [hd] at h3
      simp [hexToRgbList] at h3
    | cons a as => simp [truthy, hd]

/-- Looking a non-list key up in the output skips the fixed and list parts
whenever the fixed part misses it, landing in the alpha part. -/
theorem lookup_skip_to_alpha (t : ColorTheme) (dark : Bool) (k : String)
    (hk : k.data[8]? ≠ some 'l')
    (hfix : List.lookup k (fixedVars (if dark then getDarkModeColors t else t)) = none) :
    List.lookup k (computeThemeVariables (some t) dark) = List.lookup k (alphaPart t) := by
  show List.lookup k
    (fixedVars (if dark then getDarkModeColors t else t) ++ (listPart t ++ alphaPart t)) = _
  rw [lookup_append_none _ _ _ hfix]
  have hL : List.lookup k (listPart t) = none := by
    unfold listPart
    cases hls : t.listColors with
    | none => rfl
    | some ls => exact lookup_listVars_of_ne k hk 0 ls
  rw [lookup_append_none _ _ _ hL]

/-- C1: if the input theme's `primary` parses to (r, g, b) and the weighted
brightness `(r*299 + g*587 + b*114) / 1000` is below 128, `getDarkModeColors`
replaces `primary` by `rgb(min(255,r+80), min(255,g+80), min(255,b+80))`,
`primaryHover` by those components each further +20 clamped at 255, and
`primaryDark` by those components each further -20 clamped only through
`min 255 (x - 20)` (x is always ≥ 80 here, so no lower clamp is ever
exercised); with brightness ≥ 128, or `primary` absent or unparsable, the
three fields keep exactly what the shallow copy carried.  In particular
`#000000` gives `rgb(80, 80, 80)`, `rgb(100, 100, 100)`, `rgb(60, 60, 60)`. -/
theorem c1_dark_brightening (t : ColorTheme) (s : String) (c : Rgb)
    (hp : t.primary = some s) (hparse : hexToRgb (JsVal.str s) = some c) :
    (((c.r * 299 + c.g * 587 + c.b * 114) / 1000 < 128 →
        (getDarkModeColors t).primary =
          some (rgbCss (min 255 (c.r + 80)) (min 255 (c.g + 80)) (min 255 (c.b + 80))) ∧
        (getDarkModeColors t).primaryHover =
          some (rgbCss (min 255 (min 255 (c.r + 80) + 20)) (min 255 (min 255 (c.g + 80) + 20))
            (min 255 (min 255 (c.b + 80) + 20))) ∧
        (getDarkModeColors t).primaryDark =
          some (rgbCss (min 255 (min 255 (c.r + 80) - 20)) (min 255 (min 255 (c.g + 80) - 20))
            (min 255 (min 255 (c.b + 80) - 20)))) ∧
      (128 ≤ (c.r * 299 + c.g * 587 + c.b * 114) / 1000 →
        (getDarkModeColors t).primary = t.primary ∧
        (getDarkModeColors t).primaryHover = t.primaryHover ∧
        (getDarkModeColors t).primaryDark = t.primaryDark)) ∧
    (∀ t2 : ColorTheme,
        (∀ s2 : String, t2.primary = some s2 → hexToRgb (JsVal.str s2) = none) →
        (getDarkModeColors t2).primary = t2.primary ∧
        (getDarkModeColors t2).primaryHover = t2.primaryHover ∧
        (getDarkModeColors t2).primaryDark = t2.primaryDark) ∧
    (getDarkModeColors { primary := some "#000000" }).primary = some "rgb(80, 80, 80)" ∧
    (getDarkModeColors { primary := some "#000000" }).primaryHover = some "rgb(100, 100, 100)" ∧
    (getDarkModeColors { primary := some "#000000" }).primaryDark = some "rgb(60, 60, 60)" := by
  have hjs : hexToRgb (jsOf t.primary) = some c := by rw [hp]; exact hparse
  have ht : truthy t.primary = true := truthy_of_parse hjs
  refine ⟨⟨?_, ?_⟩, ?_, by decide, by decide, by decide⟩
  · intro hb
    simp [getDarkModeColors, ht, hjs, hb]
  · intro hb
    have hb2 : ¬((c.r * 299 + c.g * 587 + c.b * 114) / 1000 < 128) := by omega
    simp [getDarkModeColors, ht, hjs, hb2]
  · intro t2 h2
    cases hopt : t2.primary with
    | none => simp [getDarkModeColors, hopt, truthy]
    | some s2 =>
      have hx : hexToRgb (jsOf (some s2)) = none := h2 s2 hopt
      by_cases hts : truthy (some s2) = true
      · simp [getDarkModeColors, hopt, hts, hx]
      · have hts2 : truthy (some s2) = false := by simpa using hts
        simp [getDarkModeColors, hopt, hts2]

/-- C1 (witness): the spec's `#000000` example, brightness 0. -/
theorem c1_witness :
    hexToRgb (JsVal.str "#000000") = some ⟨0, 0, 0⟩ ∧
    ((((0 : Nat) * 299 + 0 * 587 + 0 * 114) / 1000 < 128 →
        (getDarkModeColors { primary := some "#000000" }).primary =
          some (rgbCss (min 255 (0 + 80)) (min 255 (0 + 80)) (min 255 (0 + 80))) ∧
        (getDarkModeColors { primary := some "#000000" }).primaryHover =
          some (rgbCss (min 255 (min 255 (0 + 80) + 20)) (min 255 (min 255 (0 + 80) + 20))
            (min 255 (min 255 (0 + 80) + 20))) ∧
        (getDarkModeColors { primary := some "#000000" }).primaryDark =
          some (rgbCss (min 255 (min 255 (0 + 80) - 20)) (min 255 (min 255 (0 + 80) - 20))
            (min 255 (min 255 (0 + 80) - 20)))) ∧
      (128 ≤ ((0 : Nat) * 299 + 0 * 587 + 0 * 114) / 1000 →
        (getDarkModeColors { primary := some "#000000" }).primary = some "#000000" ∧
        (getDarkModeColors { primary := some "#000000" }).primaryHover = none ∧
        (getDarkModeColors { primary := some "#000000" }).primaryDark = none)) ∧
    (∀ t2 : ColorTheme,
        (∀ s2 : String, t2.primary = some s2 → hexToRgb (JsVal.str s2) = none) →
        (getDarkModeColors t2).primary = t2.primary ∧
        (getDarkModeColors t2).primaryHover = t2.primaryHover ∧
        (getDarkModeColors t2).primaryDark = t2.primaryDark) ∧
    (getDarkModeColors { primary := some "#000000" }).primary = some "rgb(80, 80, 80)" ∧
    (getDarkModeColors { primary := some "#000000" }).primaryHover = some "rgb(100, 100, 100)" ∧
    (getDarkModeColors { primary := some "#000000" }).primaryDark = some "rgb(60, 60, 60)" :=
  ⟨by decide,
   c1_dark_brightening { primary := some "#000000" } "#000000" ⟨0, 0, 0⟩ rfl (by decide)⟩

/-- C2: for every theme and either mode flag, the six RGB/alpha entries are
derived from the original input theme's `primary` (never the dark-derived
one): a successful parse to (r, g, b) puts exactly
`--theme-primary-rgb = "r, g, b"` and the five
`--theme-primary-NN = "rgba(r, g, b, 0.NN)"` entries (alpha text 0.15, 0.20,
0.25, 0.40, 0.60) in the output, and a failed parse (missing, empty or
malformed `primary`) leaves all six keys absent. -/
theorem c2_alpha_variants (t : ColorTheme) (dark : Bool) :
    (∀ c : Rgb, hexToRgb (jsOf t.primary) = some c →
        List.lookup "--theme-primary-rgb" (computeThemeVariables (some t) dark) =
          some (some (rgbTriple c)) ∧
        List.lookup "--theme-primary-15" (computeThemeVariables (some t) dark) =
          some (some (rgbaCss c "0.15")) ∧
        List.lookup "--theme-primary-20" (computeThemeVariables (some t) dark) =
          some (some (rgbaCss c "0.20")) ∧
        List.lookup "--theme-primary-25" (computeThemeVariables (some t) dark) =
          some (some (rgbaCss c "0.25")) ∧
        List.lookup "--theme-primary-40" (computeThemeVariables (some t) dark) =
          some (some (rgbaCss c "0.40")) ∧
        List.lookup "--theme-primary-60" (computeThemeVariables (some t) dark) =
          some (some (rgbaCss c "0.60"))) ∧
    (hexToRgb (jsOf t.primary) = none →
        List.lookup "--theme-primary-rgb" (computeThemeVariables (some t) dark) = none ∧
        List.lookup "--theme-primary-15" (computeThemeVariables (some t) dark) = none ∧
        List.lookup "--theme-primary-20" (computeThemeVariables (some t) dark) = none ∧
        List.lookup "--theme-primary-25" (computeThemeVariables (some t) dark) = none ∧
        List.lookup "--theme-primary-40" (computeThemeVariables (some t) dark) = none ∧
        List.lookup "--theme-primary-60" (computeThemeVariables (some t) dark) = none) := by
  constructor
  · intro c hsome
    have ht := truthy_of_parse hsome
    have hA : alphaPart t = alphaVars c := by
      unfold alphaPart
      rw [ht, hsome]
      simp
    refine ⟨?_, ?_, ?_, ?_, ?_, ?_⟩
    · rw [lookup_skip_to_alpha t dark "--theme-primary-rgb" (by decide) rfl, hA]; rfl
    · rw [lookup_skip_to_alpha t dark "--theme-primary-15" (by decide) rfl, hA]; rfl
    · rw [lookup_skip_to_alpha t dark "--theme-primary-20" (by decide) rfl, hA]; rfl
    · rw [lookup_skip_to_alpha t dark "--theme-primary-25" (by decide) rfl, hA]; rfl
    · rw [lookup_skip_to_alpha t dark "--theme-primary-40" (by decide) rfl, hA]; rfl
    · rw [lookup_skip_to_alpha t dark "--theme-primary-60" (by decide) rfl, hA]; rfl
  · intro hnone
    have hA : alphaPart t = [] := by
      unfold alphaPart
      by_cases ht : truthy t.primary = true
      · rw [ht, hnone]
        simp
      · have ht2 : truthy t.primary = false := by simpa using ht
        rw [ht2]
        simp
    refine ⟨?_, ?_, ?_, ?_, ?_, ?_⟩
    · rw [lookup_skip_to_alpha t dark "--theme-primary-rgb" (by decide) rfl, hA]; rfl
    · rw [lookup_skip_to_alpha t dark "--theme-primary-15" (by decide) rfl, hA]; rfl
    · rw [lookup_skip_to_alpha t dark "--theme-primary-20" (by decide) rfl, hA]; rfl
    · rw [lookup_skip_to_alpha t dark "--theme-primary-25" (by decide) rfl, hA]; rfl
    · rw [lookup_skip_to_alpha t dark "--theme-primary-40" (by decide) rfl, hA]; rfl
    · rw [lookup_skip_to_alpha t dark "--theme-primary-60" (by decide) rfl, hA]; rfl

/-- C5: every element of the original input theme's `listColors`, at 0-based
position i, appears verbatim as `--theme-list-color-{i+1}` in the output, in
both light and dark mode, with no deduplication and no validation of the
element; the entries never read the dark-derived theme. -/
theorem c5_list_colors (t : ColorTheme) (b : Bool) (ls : List String) (i : Nat)
    (hls : t.listColors = some ls) (hi : i < ls.length) :
    List.lookup ("--theme-list-color-" ++ Nat.repr (i + 1)) (computeThemeVariables (some t) b) =
      some (some (ls.get ⟨i, hi⟩)) := by
  show List.lookup _ (fixedVars (if b then getDarkModeColors t else t) ++
    (listPart t ++ alphaPart t)) = _
  rw [lookup_append_none _ _ _ (lookup_listKey_fixedVars _ _)]
  have hin : List.lookup ("--theme-list-color-" ++ Nat.repr (i + 1)) (listPart t) =
      some (some (ls.get ⟨i, hi⟩)) := by
    unfold listPart
    rw [hls]
    have h3 := lookup_listVars_get ls 0 i hi
    simpa using h3
  exact lookup_append_some _ _ _ _ hin

/-- C5 (witness): the spec's `["#111111", "#222222"]` example in dark mode. -/
theorem c5_witness :
    List.lookup ("--theme-list-color-" ++ Nat.repr 2)
      (computeThemeVariables (some { listColors := some ["#111111", "#222222"] }) true) =
      some (some "#222222") :=
  c5_list_colors { listColors := some ["#111111", "#222222"] } true
    ["#111111", "#222222"] 1 rfl (by decide)

/-- C10: `getDarkModeColors` unconditionally sets `blockquoteBorder` and
`hrColor` to the original theme's `primary` (overwriting any values the
input carried, staying `undefined` when `primary` is absent, and keeping the
original unbrightened string when `primary` is brightened), so the dark-mode
output entries `--theme-blockquote-border` and `--theme-hr-color` always
equal the input's `primary` field. -/
theorem c10_blockquote_hr (t : ColorTheme) :
    (getDarkModeColors t).blockquoteBorder = t.primary ∧
    (getDarkModeColors t).hrColor = t.primary ∧
    List.lookup "--theme-blockquote-border" (computeThemeVariables (some t) true) =
      some t.primary ∧
    List.lookup "--theme-hr-color" (computeThemeVariables (some t) true) = some t.primary := by
  have h1 : (getDarkModeColors t).blockquoteBorder = t.primary := by
    simp only [getDarkModeColors]
    repeat' split
    all_goals rfl
  have h2 : (getDarkModeColors t).hrColor = t.primary := by
    simp only [getDarkModeColors]
    repeat' split
    all_goals rfl
  refine ⟨h1, h2, ?_, ?_⟩
  · have e : List.lookup "--theme-blockquote-border" (computeThemeVariables (some t) true) =
        some ((getDarkModeColors t).blockquoteBorder) := rfl
    rw [e, h1]
  · have e : List.lookup "--theme-hr-color" (computeThemeVariables (some t) true) =
        some ((getDarkModeColors t).hrColor) := rfl
    rw [e, h2]

end ThemeVars
